import Mathlib

/-!
Shallow embedding of the ledger core of the air-waffle finance backend
(src/backend/main.py): timeline transaction create/update/delete and the
account-balance maintenance they perform.

Modelling conventions:
* Monetary amounts (`DECIMAL(15,2)` / Python `Decimal`) are modelled as `Int`
  (exact arithmetic in minor units); balances are `Int`.
* Database tables are lists of rows; `get_one(table, 'id = %s')` is
  `List.find?` on the id, and SQL scan order is list order.
* Each HTTP handler body is one function `DB → ... → Except LedgerError DB`:
  an `.ok` result is the committed state, an `.error` result models
  `conn.rollback()` (the caller keeps the pre-call state).
* A `persist_ok : Bool` argument injects an arbitrary persistence failure
  inside the transaction (the `except Exception` path of the handler).
* Python truthiness of `Optional[int]` fields (`if not x`) is `truthy`:
  `None` and `0` are falsy.
-/

deriving instance DecidableEq for Except

namespace AirWaffle

/-- Typed rendering of the HTTP error responses raised by the handlers. -/
inductive LedgerError where
  | invalidType
  | invalidAmount
  | categoryMismatch
  | sameAccount
  | missingPaymentMethod
  | missingAccounts
  | insufficientFunds
  | accessDenied
  | notFound
  | persistence
deriving DecidableEq, Repr

/-- A row of the `accounts` table (the fields the ledger core reads). -/
structure Account where
  id : Nat
  name : String
  type : String
  current_balance : Int
  is_active : Bool
deriving DecidableEq, Repr

/-- A row of the `payment_methods` table. -/
structure PaymentMethod where
  id : Nat
  name : String
deriving DecidableEq, Repr

/-- A row of the `users` table (the fields the ledger core reads). -/
structure User where
  id : Nat
  role : String
deriving DecidableEq, Repr

/-- A row of the `timeline` table, per the schema in init_db_postgres.py. -/
structure TimelineRow where
  id : Nat
  date : String
  type : String
  category_id : Option Nat
  category_type : Option String
  from_account_id : Option Nat
  to_account_id : Option Nat
  amount : Int
  payment_method_id : Option Nat
  description : Option String
  location_id : Option Nat
  user_id : Nat
deriving DecidableEq, Repr

/-- The persistent state the ledger core touches. `next_id` models the
`SERIAL` id generator of the `timeline` table. -/
structure DB where
  accounts : List Account
  payment_methods : List PaymentMethod
  timeline : List TimelineRow
  users : List User
  next_id : Nat
deriving DecidableEq, Repr

/-- Request body of `POST /timeline` (`TimelineOperationCreate`). -/
structure TimelineOperationCreate where
  date : String
  type : String
  category_id : Option Nat := none
  category_type : Option String := none
  payment_method_id : Option Nat := none
  from_account_id : Option Nat := none
  to_account_id : Option Nat := none
  amount : Int
  description : Option String := none
  location_id : Option Nat := none
deriving DecidableEq, Repr

/-- Request body of `PUT /timeline/{id}` (`TimelineOperationUpdate`). -/
structure TimelineOperationUpdate where
  date : Option String := none
  category_id : Option Nat := none
  category_type : Option String := none
  payment_method_id : Option Nat := none
  from_account_id : Option Nat := none
  to_account_id : Option Nat := none
  amount : Option Int := none
  description : Option String := none
  location_id : Option Nat := none
deriving DecidableEq, Repr

/-- Python truthiness of an `Optional[int]`: `None` and `0` are falsy. -/
def truthy : Option Nat → Bool
  | none => false
  | some n => n != 0

/-- `get_one('accounts', 'id = %s', (account_id,))`. -/
def get_account (db : DB) (account_id : Nat) : Option Account :=
  db.accounts.find? (fun a => a.id == account_id)

/-- The `current_balance` of an account, when the account exists. -/
def balance_of (db : DB) (account_id : Nat) : Option Int :=
  (get_account db account_id).map (fun a => a.current_balance)

/-- `update_account_balance(account_id, amount_change, conn)`: read the
current balance, reject with 404 if the account is missing, reject with
"Insufficient funds" if the new balance would be negative, otherwise write
the new balance. -/
def update_account_balance (db : DB) (account_id : Nat) (amount_change : Int) :
    Except LedgerError DB :=
  match get_account db account_id with
  | none => .error .notFound
  | some account =>
    let new_balance := account.current_balance + amount_change
    if new_balance < 0 then
      .error .insufficientFunds
    else
      .ok { db with
        accounts := db.accounts.map (fun a =>
          if a.id == account_id then { a with current_balance := new_balance } else a) }

/-- Passing an `Optional[int]` account id to `update_account_balance`:
`id = NULL` matches no row, so the lookup fails with 404. -/
def update_account_balance_opt (db : DB) :
    Option Nat → Int → Except LedgerError DB
  | none, _ => .error .notFound
  | some account_id, amount_change => update_account_balance db account_id amount_change

/-- `validate_operation_data(operation)`, with the checks in source order:
type whitelist, then per-type checks, then the positivity check on amount. -/
def validate_operation_data (operation : TimelineOperationCreate) :
    Except LedgerError Unit :=
  if ¬ (operation.type = "expense" ∨ operation.type = "income" ∨
        operation.type = "transfer") then
    .error .invalidType
  else if operation.type = "expense" ∧
      (truthy operation.category_id = false ∨ operation.category_type ≠ some "expense") then
    .error .categoryMismatch
  else if operation.type = "expense" ∧ truthy operation.payment_method_id = false then
    .error .missingPaymentMethod
  else if operation.type = "income" ∧
      (truthy operation.category_id = false ∨ operation.category_type ≠ some "income") then
    .error .categoryMismatch
  else if operation.type = "income" ∧ truthy operation.payment_method_id = false then
    .error .missingPaymentMethod
  else if operation.type = "transfer" ∧
      (truthy operation.from_account_id = false ∨ truthy operation.to_account_id = false) then
    .error .missingAccounts
  else if operation.type = "transfer" ∧
      operation.from_account_id = operation.to_account_id then
    .error .sameAccount
  else if operation.amount ≤ 0 then
    .error .invalidAmount
  else
    .ok ()

/-- Python `str.lower()` on one character, restricted to the Latin and
Cyrillic ranges relevant to payment-method names (ASCII `A–Z` and Cyrillic
`А–Я`/`Ё` map to their lowercase forms; everything else is unchanged). -/
def py_lower_char (c : Char) : Char :=
  if 'A' ≤ c ∧ c ≤ 'Z' then Char.ofNat (c.toNat + 32)
  else if 'А' ≤ c ∧ c ≤ 'Я' then Char.ofNat (c.toNat + 32)
  else if c = 'Ё' then 'ё'
  else c

/-- Python `str.lower()` for the alphabets in use (character-wise map over
the string's characters). -/
def py_lower (s : String) : String :=
  ⟨s.data.map py_lower_char⟩

/-- `get_account_for_payment_method(payment_method_id)`: look up the payment
method; classify it as cash when `name.lower()` is exactly `'наличные'` or
`'cash'`, else bank; return the first active account of that type, falling
back to the first active account of any type; 404 when nothing matches. -/
def get_account_for_payment_method (db : DB) (payment_method_id : Nat) :
    Except LedgerError Nat :=
  match db.payment_methods.find? (fun m => m.id == payment_method_id) with
  | none => .error .notFound
  | some payment_method =>
    let account_type : String :=
      if py_lower payment_method.name = "наличные" ∨ py_lower payment_method.name = "cash"
      then "cash" else "bank"
    match db.accounts.find? (fun a => a.type == account_type && a.is_active) with
    | some account => .ok account.id
    | none =>
      match db.accounts.find? (fun a => a.is_active) with
      | some account => .ok account.id
      | none => .error .notFound

/-- Resolution when the stored/request payment method id is `Optional[int]`:
`id = NULL` matches no payment-method row, hence 404. -/
def resolve_payment_method (db : DB) : Option Nat → Except LedgerError Nat
  | none => .error .notFound
  | some payment_method_id => get_account_for_payment_method db payment_method_id

/-- The timeline row inserted by `POST /timeline` (the INSERT statement). -/
def timeline_row_of (db : DB) (operation : TimelineOperationCreate) (user_id : Nat) :
    TimelineRow :=
  { id := db.next_id
    date := operation.date
    type := operation.type
    category_id := operation.category_id
    category_type := operation.category_type
    from_account_id := operation.from_account_id
    to_account_id := operation.to_account_id
    amount := operation.amount
    payment_method_id := operation.payment_method_id
    description := operation.description
    location_id := operation.location_id
    user_id := user_id }

/-- The balance-update block of `POST /timeline`, run after the INSERT. -/
def apply_create_balances (db : DB) (operation : TimelineOperationCreate)
    (account_id : Option Nat) : Except LedgerError DB :=
  if operation.type = "expense" then
    update_account_balance_opt db account_id (-operation.amount)
  else if operation.type = "income" then
    update_account_balance_opt db account_id operation.amount
  else if operation.type = "transfer" then
    match update_account_balance_opt db operation.from_account_id (-operation.amount) with
    | .error e => .error e
    | .ok db1 => update_account_balance_opt db1 operation.to_account_id operation.amount
  else
    .ok db

/-- `POST /timeline` (`create_timeline_operation`): validate, resolve the
account from the payment method for expense/income, insert the row, apply the
balance deltas, commit; any error rolls the whole transaction back. -/
def create_timeline_operation (db : DB) (operation : TimelineOperationCreate)
    (user_id : Nat) (persist_ok : Bool) : Except LedgerError DB :=
  match validate_operation_data operation with
  | .error e => .error e
  | .ok _ =>
    match (if operation.type = "expense" ∨ operation.type = "income" then
             match resolve_payment_method db operation.payment_method_id with
             | .error e => .error e
             | .ok a => .ok (some a)
           else (.ok none : Except LedgerError (Option Nat))) with
    | .error e => .error e
    | .ok account_id =>
      match apply_create_balances
          { db with
            timeline := db.timeline ++ [timeline_row_of db operation user_id]
            next_id := db.next_id + 1 }
          operation account_id with
      | .error e => .error e
      | .ok db2 => if persist_ok then .ok db2 else .error .persistence

/-- The balance-rollback-and-reapply block of `PUT /timeline/{id}`, run when
the amount actually changes. For expense/income the affected account is
re-resolved from the stored payment method at update time. -/
def apply_update_balances (db : DB) (current_operation : TimelineRow)
    (new_amount : Int) : Except LedgerError DB :=
  if current_operation.type = "expense" then
    match resolve_payment_method db current_operation.payment_method_id with
    | .error e => .error e
    | .ok account_id =>
      match update_account_balance db account_id current_operation.amount with
      | .error e => .error e
      | .ok db1 => update_account_balance db1 account_id (-new_amount)
  else if current_operation.type = "income" then
    match resolve_payment_method db current_operation.payment_method_id with
    | .error e => .error e
    | .ok account_id =>
      match update_account_balance db account_id (-current_operation.amount) with
      | .error e => .error e
      | .ok db1 => update_account_balance db1 account_id new_amount
  else if current_operation.type = "transfer" then
    match update_account_balance_opt db current_operation.from_account_id
        current_operation.amount with
    | .error e => .error e
    | .ok db1 =>
      match update_account_balance_opt db1 current_operation.to_account_id
          (-current_operation.amount) with
      | .error e => .error e
      | .ok db2 =>
        match update_account_balance_opt db2 current_operation.from_account_id
            (-new_amount) with
        | .error e => .error e
        | .ok db3 => update_account_balance_opt db3 current_operation.to_account_id new_amount
  else
    .ok db

/-- The field write of `PUT /timeline/{id}`: only date, category_id,
category_type, amount, description and payment_method_id are ever added to
the UPDATE statement; a `None` field is left untouched. -/
def apply_update_fields (r : TimelineRow) (u : TimelineOperationUpdate) : TimelineRow :=
  { r with
    date := u.date.getD r.date
    category_id := match u.category_id with | none => r.category_id | some c => some c
    category_type := match u.category_type with | none => r.category_type | some c => some c
    amount := u.amount.getD r.amount
    description := match u.description with | none => r.description | some d => some d
    payment_method_id :=
      match u.payment_method_id with | none => r.payment_method_id | some p => some p }

/-- `PUT /timeline/{id}` (`update_timeline_operation`): fetch the row (404),
authorize (only the creator or an owner, else 403), roll back the old and
apply the new balance delta when the amount changes, then write the updated
fields; any error rolls the whole transaction back. -/
def update_timeline_operation (db : DB) (operation_id : Nat)
    (operation_update : TimelineOperationUpdate) (user_id : Nat)
    (persist_ok : Bool) : Except LedgerError DB :=
  match db.timeline.find? (fun r => r.id == operation_id) with
  | none => .error .notFound
  | some current_operation =>
    match db.users.find? (fun u => u.id == user_id) with
    | none => .error .persistence
    | some current_user =>
      if current_operation.user_id ≠ user_id ∧ current_user.role ≠ "owner" then
        .error .accessDenied
      else
        match (match operation_update.amount with
               | none => (.ok db : Except LedgerError DB)
               | some new_amount =>
                 if new_amount ≠ current_operation.amount then
                   apply_update_balances db current_operation new_amount
                 else .ok db) with
        | .error e => .error e
        | .ok db1 =>
          if persist_ok then
            .ok { db1 with
              timeline := db1.timeline.map (fun r =>
                if r.id == operation_id then apply_update_fields r operation_update else r) }
          else .error .persistence

/-- The balance-rollback block of `DELETE /timeline/{id}`. For expense/income
the affected account is re-resolved from the stored payment method at
deletion time. -/
def apply_delete_balances (db : DB) (operation : TimelineRow) :
    Except LedgerError DB :=
  if operation.type = "expense" then
    match resolve_payment_method db operation.payment_method_id with
    | .error e => .error e
    | .ok account_id => update_account_balance db account_id operation.amount
  else if operation.type = "income" then
    match resolve_payment_method db operation.payment_method_id with
    | .error e => .error e
    | .ok account_id => update_account_balance db account_id (-operation.amount)
  else if operation.type = "transfer" then
    match update_account_balance_opt db operation.from_account_id operation.amount with
    | .error e => .error e
    | .ok db1 => update_account_balance_opt db1 operation.to_account_id (-operation.amount)
  else
    .ok db

/-- `DELETE /timeline/{id}` (`delete_timeline_operation`): fetch the row
(404), authorize (creator or owner, else 403), negate the row's balance
effect, delete the row, commit; any error rolls the whole transaction back. -/
def delete_timeline_operation (db : DB) (operation_id : Nat) (user_id : Nat)
    (persist_ok : Bool) : Except LedgerError DB :=
  match db.timeline.find? (fun r => r.id == operation_id) with
  | none => .error .notFound
  | some operation =>
    match db.users.find? (fun u => u.id == user_id) with
    | none => .error .persistence
    | some current_user =>
      if operation.user_id ≠ user_id ∧ current_user.role ≠ "owner" then
        .error .accessDenied
      else
        match apply_delete_balances db operation with
        | .error e => .error e
        | .ok db1 =>
          if persist_ok then
            .ok { db1 with timeline := db1.timeline.filter (fun r => r.id != operation_id) }
          else .error .persistence

/-- One client request against the ledger core. -/
inductive LedgerRequest where
  | create (operation : TimelineOperationCreate) (user_id : Nat) (persist_ok : Bool)
  | update (operation_id : Nat) (operation_update : TimelineOperationUpdate)
      (user_id : Nat) (persist_ok : Bool)
  | delete (operation_id : Nat) (user_id : Nat) (persist_ok : Bool)
deriving DecidableEq, Repr

/-- Dispatch a request to its handler. -/
def apply_request (db : DB) : LedgerRequest → Except LedgerError DB
  | .create operation user_id persist_ok =>
    create_timeline_operation db operation user_id persist_ok
  | .update operation_id u user_id persist_ok =>
    update_timeline_operation db operation_id u user_id persist_ok
  | .delete operation_id user_id persist_ok =>
    delete_timeline_operation db operation_id user_id persist_ok

/-- The state visible after a request: the committed state on success, the
rolled-back (unchanged) state on any error. -/
def run_request (db : DB) (r : LedgerRequest) : DB :=
  match apply_request db r with
  | .ok db1 => db1
  | .error _ => db

/-- Run a sequence of requests. -/
def run_requests (db : DB) (rs : List LedgerRequest) : DB :=
  rs.foldl run_request db

/-- Every stored account balance is non-negative. -/
def balances_nonneg (db : DB) : Prop :=
  ∀ a ∈ db.accounts, 0 ≤ a.current_balance

/-- The single-account delta `c` at account `aid`, viewed as a function of
the queried account. -/
def single_delta (aid : Nat) (c : Int) (x : Nat) : Int :=
  if x = aid then c else 0

/-- The delta `c` at the account an `Optional[int]` id designates, as a
function of the queried account. -/
def opt_delta (o : Option Nat) (c : Int) (x : Nat) : Int :=
  if some x = o then c else 0

/-- The signed balance delta a stored row applied at creation, as a function
of the queried account; `resolved` is the account the payment-method
resolution yielded for an expense/income row. -/
def applied_delta (row : TimelineRow) (resolved : Nat) (x : Nat) : Int :=
  if row.type = "expense" then single_delta resolved (-row.amount) x
  else if row.type = "income" then single_delta resolved row.amount x
  else if row.type = "transfer" then
    opt_delta row.from_account_id (-row.amount) x +
    opt_delta row.to_account_id row.amount x
  else 0

/-- `db'` holds the same balances as `db` shifted by the signed delta `d`
(per queried account), and the same set of account ids. -/
def balance_shift (db db' : DB) (d : Nat → Int) : Prop :=
  ∀ x, balance_of db' x = (balance_of db x).map (fun b => b + d x)

/-- `db'` agrees with `db` on every table except `accounts`. -/
def non_account_frame (db db' : DB) : Prop :=
  db'.payment_methods = db.payment_methods ∧
  db'.timeline = db.timeline ∧
  db'.users = db.users ∧
  db'.next_id = db.next_id

/-! ### Concrete fixtures (the spec's example scenarios, §8) -/

/-- Accounts "Cash" (id 1, cash, 1000) and "Bank" (id 2, bank, 0); payment
methods "Наличные" (5), "Card" (6), "Cash Register" (7); one owner user. -/
def ex_db : DB :=
  { accounts :=
      [ { id := 1, name := "Cash", type := "cash", current_balance := 1000, is_active := true }
      , { id := 2, name := "Bank", type := "bank", current_balance := 0, is_active := true } ]
    payment_methods := [ ⟨5, "Наличные"⟩, ⟨6, "Card"⟩, ⟨7, "Cash Register"⟩ ]
    timeline := []
    users := [ ⟨1, "owner"⟩ ]
    next_id := 1 }

/-- Scenario 1: an expense of 300 paid with "Наличные". -/
def ex_expense300 : TimelineOperationCreate :=
  { date := "2024-01-01", type := "expense", category_id := some 3,
    category_type := some "expense", payment_method_id := some 5, amount := 300 }

/-- State after scenario 1: Cash at 700. -/
def ex_db700 : DB := run_request ex_db (.create ex_expense300 1 true)

/-- Scenario 4's draft: a transfer of 200 from Cash to Bank. -/
def ex_transfer200 : TimelineOperationCreate :=
  { date := "2024-01-02", type := "transfer", from_account_id := some 1,
    to_account_id := some 2, amount := 200 }

/-- State after the transfer: Cash at 500, Bank at 200; the transfer row
has id 2. -/
def ex_db_after_transfer : DB := run_request ex_db700 (.create ex_transfer200 1 true)

/-- State after deleting the transfer row again. -/
def ex_db_after_transfer_delete : DB :=
  run_request ex_db_after_transfer (.delete 2 1 true)

/-- An incasation draft with distinct accounts and a positive amount. -/
def ex_incasation : TimelineOperationCreate :=
  { date := "2024-01-03", type := "incasation", from_account_id := some 1,
    to_account_id := some 2, amount := 100 }

/-- A stored income row of 100 paid with "Наличные" (id 9, created by user 1). -/
def ex_income_row : TimelineRow :=
  { id := 9, date := "2024-01-01", type := "income", category_id := some 1,
    category_type := some "income", from_account_id := none, to_account_id := none,
    amount := 100, payment_method_id := some 5, description := none, location_id := none,
    user_id := 1 }

/-- A database holding the stored income row while the cash account it
resolves to has been drained to 0. -/
def ex_db_drained : DB :=
  { accounts :=
      [ { id := 1, name := "Cash", type := "cash", current_balance := 0, is_active := true } ]
    payment_methods := [ ⟨5, "Наличные"⟩ ]
    timeline := [ex_income_row]
    users := [ ⟨1, "owner"⟩ ]
    next_id := 10 }

/-! Fixtures for the payment-method re-resolution scenario: an expense of 40
paid with "Card" is created while bank account A (id 1) is the only active
account; afterwards A is deactivated by an administrative edit and a new
bank account B (id 2) is opened. Deleting the expense then refunds B. -/

/-- The expense-of-40 draft paid with "Card". -/
def c1_expense40 : TimelineOperationCreate :=
  { date := "2024-01-01", type := "expense", category_id := some 3,
    category_type := some "expense", payment_method_id := some 6, amount := 40 }

/-- Initial state: bank account A (id 1) at 100, the only account. -/
def c1_db0 : DB :=
  { accounts :=
      [ { id := 1, name := "A", type := "bank", current_balance := 100, is_active := true } ]
    payment_methods := [ ⟨6, "Card"⟩ ]
    timeline := []
    users := [ ⟨1, "owner"⟩ ]
    next_id := 1 }

/-- State after the expense is created: A at 60, expense row id 1. -/
def c1_db1 : DB := run_request c1_db0 (.create c1_expense40 1 true)

/-- Administrative edit between creation and deletion: A is deactivated and
a new bank account B (id 2, 50) is opened. -/
def c1_db2 : DB :=
  { c1_db1 with accounts :=
      [ { id := 1, name := "A", type := "bank", current_balance := 60, is_active := false }
      , { id := 2, name := "B", type := "bank", current_balance := 50, is_active := true } ] }

/-- State after deleting the stored expense in the edited database. -/
def c1_db3 : DB := run_request c1_db2 (.delete 1 1 true)

/-! ### Basic lemmas about the balance-mutation primitive -/

theorem find?_map_of_pred_comm {α : Type} (f : α → α) (p : α → Bool)
    (hf : ∀ a, p (f a) = p a) :
    ∀ l : List α, (l.map f).find? p = (l.find? p).map f := by
  intro l
  induction l with
  | nil => rfl
  | cons a t ih =>
    by_cases h : p a = true
    · have hfa : p (f a) = true := by rw [hf a]; exact h
      simp [List.find?_cons_of_pos, h, hfa]
    · have h' : p a = false := by revert h; cases p a <;> simp
      have hfa : p (f a) = false := by rw [hf a]; exact h'
      simp only [List.map_cons, List.find?_cons_of_neg, h', hfa,
        Bool.not_eq_true]
      exact ih

theorem update_account_balance_ok {db db' : DB} {aid : Nat} {c : Int}
    (h : update_account_balance db aid c = .ok db') :
    non_account_frame db db' ∧ balance_shift db db' (single_delta aid c) := by
  unfold non_account_frame balance_shift
  refine ?_
  unfold update_account_balance at h
  cases hacc : get_account db aid with
  | none => rw [hacc] at h; exact absurd h (by simp)
  | some account =>
    rw [hacc] at h
    simp only [] at h
    by_cases hneg : account.current_balance + c < 0
    · rw [if_pos hneg] at h; exact absurd h (by simp)
    · rw [if_neg hneg] at h
      have hdb' : db' = { db with accounts := db.accounts.map (fun a =>
          if a.id == aid then { a with current_balance := account.current_balance + c }
          else a) } := by
        injection h with h'
        exact h'.symm
      subst hdb'
      refine ⟨⟨rfl, rfl, rfl, rfl⟩, ?_⟩
      intro x
      have haid : account.id = aid := by
        have := List.find?_some hacc
        simpa using this
      have hcomm : ∀ a : Account,
          ((fun a : Account => a.id == x)
            ((fun a : Account => if a.id == aid then
                { a with current_balance := account.current_balance + c } else a) a))
          = (fun a : Account => a.id == x) a := by
        intro a
        by_cases hida : a.id = aid
        · simp [hida]
        · simp [hida]
      have hfind : get_account { db with accounts := db.accounts.map (fun a =>
          if a.id == aid then { a with current_balance := account.current_balance + c }
          else a) } x
          = (get_account db x).map (fun a =>
              if a.id == aid then { a with current_balance := account.current_balance + c }
              else a) := by
        unfold get_account
        exact find?_map_of_pred_comm _ _ hcomm db.accounts
      by_cases hx : x = aid
      · subst hx
        unfold balance_of
        rw [hfind, hacc]
        simp [haid, single_delta]
      · unfold balance_of
        rw [hfind]
        cases hgx : get_account db x with
        | none => simp
        | some a =>
          have hax : a.id = x := by
            have := List.find?_some hgx
            simpa using this
          have : ¬ a.id = aid := by rw [hax]; exact hx
          simp [this, single_delta, hx]

theorem update_account_balance_nonneg {db db' : DB} {aid : Nat} {c : Int}
    (h : update_account_balance db aid c = .ok db')
    (hg : balances_nonneg db) : balances_nonneg db' := by
  unfold update_account_balance at h
  cases hacc : get_account db aid with
  | none => rw [hacc] at h; exact absurd h (by simp)
  | some account =>
    rw [hacc] at h
    simp only [] at h
    by_cases hneg : account.current_balance + c < 0
    · rw [if_pos hneg] at h; exact absurd h (by simp)
    · rw [if_neg hneg] at h
      have hdb' : db' = { db with accounts := db.accounts.map (fun a =>
          if a.id == aid then { a with current_balance := account.current_balance + c }
          else a) } := by
        injection h with h'
        exact h'.symm
      subst hdb'
      intro a' ha'
      simp only [List.mem_map] at ha'
      obtain ⟨a, ha, rfl⟩ := ha'
      by_cases hida : a.id = aid
      · simp only [hida, beq_self_eq_true, if_pos]
        simpa using le_of_not_lt hneg
      · have : (a.id == aid) = false := by simp [hida]
        simp only [this, Bool.false_eq_true, if_neg, not_false_eq_true]
        exact hg a ha

theorem update_account_balance_insufficient {db : DB} {aid : Nat} {c : Int}
    {account : Account}
    (hacc : get_account db aid = some account)
    (hneg : account.current_balance + c < 0) :
    update_account_balance db aid c = .error .insufficientFunds := by
  unfold update_account_balance
  rw [hacc]
  simp only []
  rw [if_pos hneg]

theorem update_account_balance_opt_ok {db db' : DB} {o : Option Nat} {c : Int}
    (h : update_account_balance_opt db o c = .ok db') :
    ∃ aid, o = some aid ∧ update_account_balance db aid c = .ok db' := by
  cases o with
  | none => exact absurd h (by simp [update_account_balance_opt])
  | some aid => exact ⟨aid, rfl, h⟩

theorem balance_map_map (o : Option Int) (c d : Int) :
    ((o.map (fun b => b + c)).map (fun b => b + d)) = o.map (fun b => b + (c + d)) := by
  cases o <;> simp [add_assoc]

theorem balance_shift_refl (db : DB) : balance_shift db db (fun _ => 0) := by
  intro x
  cases balance_of db x <;> simp

theorem balance_shift_trans {db db1 db2 : DB} {d1 d2 : Nat → Int}
    (h1 : balance_shift db db1 d1) (h2 : balance_shift db1 db2 d2) :
    balance_shift db db2 (fun x => d1 x + d2 x) := by
  intro x
  rw [h2 x, h1 x, balance_map_map]

theorem balance_shift_congr {db db' : DB} {d1 d2 : Nat → Int}
    (h : balance_shift db db' d1) (he : ∀ x, d1 x = d2 x) :
    balance_shift db db' d2 := by
  intro x
  rw [h x, he x]

theorem non_account_frame_refl (db : DB) : non_account_frame db db :=
  ⟨rfl, rfl, rfl, rfl⟩

theorem non_account_frame_trans {db db1 db2 : DB}
    (h1 : non_account_frame db db1) (h2 : non_account_frame db1 db2) :
    non_account_frame db db2 :=
  ⟨h2.1.trans h1.1, h2.2.1.trans h1.2.1, h2.2.2.1.trans h1.2.2.1, h2.2.2.2.trans h1.2.2.2⟩

theorem single_delta_eq_opt_delta (aid : Nat) (c : Int) (x : Nat) :
    single_delta aid c x = opt_delta (some aid) c x := by
  simp [single_delta, opt_delta]

theorem update_account_balance_opt_ok_shift {db db' : DB} {o : Option Nat} {c : Int}
    (h : update_account_balance_opt db o c = .ok db') :
    non_account_frame db db' ∧ balance_shift db db' (opt_delta o c) ∧
    (balances_nonneg db → balances_nonneg db') := by
  obtain ⟨aid, rfl, h'⟩ := update_account_balance_opt_ok h
  obtain ⟨hf, hs⟩ := update_account_balance_ok h'
  exact ⟨hf, balance_shift_congr hs (single_delta_eq_opt_delta aid c),
    update_account_balance_nonneg h'⟩

theorem single_delta_add (aid : Nat) (c d : Int) (x : Nat) :
    single_delta aid c x + single_delta aid d x = single_delta aid (c + d) x := by
  unfold single_delta
  split <;> simp

theorem apply_create_balances_ok {db db' : DB} {operation : TimelineOperationCreate}
    {account_id : Option Nat}
    (h : apply_create_balances db operation account_id = .ok db') :
    non_account_frame db db' ∧
    (balances_nonneg db → balances_nonneg db') ∧
    (operation.type = "expense" →
       balance_shift db db' (opt_delta account_id (-operation.amount))) ∧
    (operation.type = "income" →
       balance_shift db db' (opt_delta account_id operation.amount)) ∧
    (operation.type = "transfer" →
       balance_shift db db' (fun x =>
         opt_delta operation.from_account_id (-operation.amount) x +
         opt_delta operation.to_account_id operation.amount x)) := by
  unfold apply_create_balances at h
  split at h
  · rename_i htype
    obtain ⟨hf, hs, hn⟩ := update_account_balance_opt_ok_shift h
    exact ⟨hf, hn, fun _ => hs,
      fun hty => absurd (htype.symm.trans hty) (by decide),
      fun hty => absurd (htype.symm.trans hty) (by decide)⟩
  · rename_i hne
    split at h
    · rename_i htype
      obtain ⟨hf, hs, hn⟩ := update_account_balance_opt_ok_shift h
      exact ⟨hf, hn, fun hty => absurd hty hne, fun _ => hs,
        fun hty => absurd (htype.symm.trans hty) (by decide)⟩
    · rename_i hni
      split at h
      · split at h
        · exact absurd h (by simp)
        · rename_i hstep1
          obtain ⟨hf1, hs1, hn1⟩ := update_account_balance_opt_ok_shift hstep1
          obtain ⟨hf2, hs2, hn2⟩ := update_account_balance_opt_ok_shift h
          exact ⟨non_account_frame_trans hf1 hf2, fun hg => hn2 (hn1 hg),
            fun hty => absurd hty hne, fun hty => absurd hty hni,
            fun _ => balance_shift_trans hs1 hs2⟩
      · rename_i hnt
        have hdb : db = db' := Except.ok.inj h
        subst hdb
        exact ⟨non_account_frame_refl db, id, fun hty => absurd hty hne,
          fun hty => absurd hty hni, fun hty => absurd hty hnt⟩

theorem apply_delete_balances_ok {db db' : DB} {row : TimelineRow}
    (h : apply_delete_balances db row = .ok db') :
    non_account_frame db db' ∧
    (balances_nonneg db → balances_nonneg db') ∧
    (row.type = "expense" →
       ∃ rid, resolve_payment_method db row.payment_method_id = .ok rid ∧
         balance_shift db db' (single_delta rid row.amount)) ∧
    (row.type = "income" →
       ∃ rid, resolve_payment_method db row.payment_method_id = .ok rid ∧
         balance_shift db db' (single_delta rid (-row.amount))) ∧
    (row.type = "transfer" →
       balance_shift db db' (fun x =>
         opt_delta row.from_account_id row.amount x +
         opt_delta row.to_account_id (-row.amount) x)) := by
  unfold apply_delete_balances at h
  split at h
  · rename_i htype
    split at h
    · exact absurd h (by simp)
    · rename_i rid hres
      obtain ⟨hf, hs⟩ := update_account_balance_ok h
      exact ⟨hf, update_account_balance_nonneg h, fun _ => ⟨rid, hres, hs⟩,
        fun hty => absurd (htype.symm.trans hty) (by decide),
        fun hty => absurd (htype.symm.trans hty) (by decide)⟩
  · rename_i hne
    split at h
    · rename_i htype
      split at h
      · exact absurd h (by simp)
      · rename_i rid hres
        obtain ⟨hf, hs⟩ := update_account_balance_ok h
        exact ⟨hf, update_account_balance_nonneg h, fun hty => absurd hty hne,
          fun _ => ⟨rid, hres, hs⟩,
          fun hty => absurd (htype.symm.trans hty) (by decide)⟩
    · rename_i hni
      split at h
      · split at h
        · exact absurd h (by simp)
        · rename_i hstep1
          obtain ⟨hf1, hs1, hn1⟩ := update_account_balance_opt_ok_shift hstep1
          obtain ⟨hf2, hs2, hn2⟩ := update_account_balance_opt_ok_shift h
          exact ⟨non_account_frame_trans hf1 hf2, fun hg => hn2 (hn1 hg),
            fun hty => absurd hty hne, fun hty => absurd hty hni,
            fun _ => balance_shift_trans hs1 hs2⟩
      · rename_i hnt
        have hdb : db = db' := Except.ok.inj h
        subst hdb
        exact ⟨non_account_frame_refl db, id, fun hty => absurd hty hne,
          fun hty => absurd hty hni, fun hty => absurd hty hnt⟩

theorem apply_update_balances_ok {db db' : DB} {row : TimelineRow} {new_amount : Int}
    (h : apply_update_balances db row new_amount = .ok db') :
    non_account_frame db db' ∧
    (balances_nonneg db → balances_nonneg db') ∧
    (row.type = "expense" →
       ∃ rid, resolve_payment_method db row.payment_method_id = .ok rid ∧
         balance_shift db db' (single_delta rid (row.amount - new_amount))) ∧
    (row.type = "income" →
       ∃ rid, resolve_payment_method db row.payment_method_id = .ok rid ∧
         balance_shift db db' (single_delta rid (new_amount - row.amount))) ∧
    (row.type = "transfer" →
       balance_shift db db' (fun x =>
         opt_delta row.from_account_id (row.amount - new_amount) x +
         opt_delta row.to_account_id (new_amount - row.amount) x)) := by
  unfold apply_update_balances at h
  split at h
  · rename_i htype
    split at h
    · exact absurd h (by simp)
    · rename_i rid hres
      split at h
      · exact absurd h (by simp)
      · rename_i db1 hstep1
        obtain ⟨hf1, hs1⟩ := update_account_balance_ok hstep1
        obtain ⟨hf2, hs2⟩ := update_account_balance_ok h
        refine ⟨non_account_frame_trans hf1 hf2,
          fun hg => update_account_balance_nonneg h (update_account_balance_nonneg hstep1 hg),
          fun _ => ⟨rid, hres, ?_⟩,
          fun hty => absurd (htype.symm.trans hty) (by decide),
          fun hty => absurd (htype.symm.trans hty) (by decide)⟩
        refine balance_shift_congr (balance_shift_trans hs1 hs2) ?_
        intro x
        rw [single_delta_add]
        rw [sub_eq_add_neg]
  · rename_i hne
    split at h
    · rename_i htype
      split at h
      · exact absurd h (by simp)
      · rename_i rid hres
        split at h
        · exact absurd h (by simp)
        · rename_i db1 hstep1
          obtain ⟨hf1, hs1⟩ := update_account_balance_ok hstep1
          obtain ⟨hf2, hs2⟩ := update_account_balance_ok h
          refine ⟨non_account_frame_trans hf1 hf2,
            fun hg => update_account_balance_nonneg h (update_account_balance_nonneg hstep1 hg),
            fun hty => absurd hty hne,
            fun _ => ⟨rid, hres, ?_⟩,
            fun hty => absurd (htype.symm.trans hty) (by decide)⟩
          refine balance_shift_congr (balance_shift_trans hs1 hs2) ?_
          intro x
          rw [single_delta_add]
          rw [neg_add_eq_sub]
    · rename_i hni
      split at h
      · split at h
        · exact absurd h (by simp)
        · rename_i hstep1
          split at h
          · exact absurd h (by simp)
          · rename_i hstep2
            split at h
            · exact absurd h (by simp)
            · rename_i hstep3
              obtain ⟨hf1, hs1, hn1⟩ := update_account_balance_opt_ok_shift hstep1
              obtain ⟨hf2, hs2, hn2⟩ := update_account_balance_opt_ok_shift hstep2
              obtain ⟨hf3, hs3, hn3⟩ := update_account_balance_opt_ok_shift hstep3
              obtain ⟨hf4, hs4, hn4⟩ := update_account_balance_opt_ok_shift h
              refine ⟨non_account_frame_trans (non_account_frame_trans
                  (non_account_frame_trans hf1 hf2) hf3) hf4,
                fun hg => hn4 (hn3 (hn2 (hn1 hg))),
                fun hty => absurd hty hne, fun hty => absurd hty hni,
                fun _ => ?_⟩
              refine balance_shift_congr (balance_shift_trans (balance_shift_trans
                (balance_shift_trans hs1 hs2) hs3) hs4) ?_
              intro x
              unfold opt_delta
              by_cases h1 : some x = row.from_account_id <;>
                by_cases h2 : some x = row.to_account_id
              · rw [if_pos h1, if_pos h2, if_pos h1, if_pos h2, if_pos h1, if_pos h2]; ring
              · rw [if_pos h1, if_neg h2, if_pos h1, if_neg h2, if_pos h1, if_neg h2]; ring
              · rw [if_neg h1, if_pos h2, if_neg h1, if_pos h2, if_neg h1, if_pos h2]; ring
              · rw [if_neg h1, if_neg h2, if_neg h1, if_neg h2, if_neg h1, if_neg h2]; ring
      · rename_i hnt
        have hdb : db = db' := Except.ok.inj h
        subst hdb
        exact ⟨non_account_frame_refl db, id, fun hty => absurd hty hne,
          fun hty => absurd hty hni, fun hty => absurd hty hnt⟩

theorem create_timeline_operation_ok {db db' : DB} {operation : TimelineOperationCreate}
    {user_id : Nat} {persist_ok : Bool}
    (h : create_timeline_operation db operation user_id persist_ok = .ok db') :
    persist_ok = true ∧
    db'.timeline = db.timeline ++ [timeline_row_of db operation user_id] ∧
    db'.next_id = db.next_id + 1 ∧
    db'.payment_methods = db.payment_methods ∧
    db'.users = db.users ∧
    (balances_nonneg db → balances_nonneg db') ∧
    (operation.type = "expense" →
       ∃ rid, resolve_payment_method db operation.payment_method_id = .ok rid ∧
         balance_shift db db' (single_delta rid (-operation.amount))) ∧
    (operation.type = "income" →
       ∃ rid, resolve_payment_method db operation.payment_method_id = .ok rid ∧
         balance_shift db db' (single_delta rid operation.amount)) ∧
    (operation.type = "transfer" →
       balance_shift db db' (fun x =>
         opt_delta operation.from_account_id (-operation.amount) x +
         opt_delta operation.to_account_id operation.amount x)) := by
  unfold create_timeline_operation at h
  split at h
  · exact absurd h (by simp)
  · split at h
    · exact absurd h (by simp)
    · rename_i account_id heq
      split at h
      · exact absurd h (by simp)
      · rename_i db2 hbal
        split at h
        · rename_i hp
          have hdb : db2 = db' := Except.ok.inj h
          subst hdb
          obtain ⟨hf, hn, hexp, hinc, htr⟩ := apply_create_balances_ok hbal
          refine ⟨hp, ?_, ?_, ?_, ?_, ?_, ?_, ?_, ?_⟩
          · exact hf.2.1
          · exact hf.2.2.2
          · exact hf.1
          · exact hf.2.2.1
          · exact fun hg => hn hg
          · intro hty
            rw [if_pos (Or.inl hty)] at heq
            split at heq
            · exact absurd heq (by simp)
            · rename_i rid hres
              have hacc : some rid = account_id := Except.ok.inj heq
              refine ⟨rid, hres, ?_⟩
              refine balance_shift_congr (hexp hty) ?_
              intro x
              rw [← hacc, ← single_delta_eq_opt_delta]
          · intro hty
            rw [if_pos (Or.inr hty)] at heq
            split at heq
            · exact absurd heq (by simp)
            · rename_i rid hres
              have hacc : some rid = account_id := Except.ok.inj heq
              refine ⟨rid, hres, ?_⟩
              refine balance_shift_congr (hinc hty) ?_
              intro x
              rw [← hacc, ← single_delta_eq_opt_delta]
          · intro hty
            exact htr hty
        · exact absurd h (by simp)

theorem update_timeline_operation_ok {db db' : DB} {operation_id : Nat}
    {u : TimelineOperationUpdate} {user_id : Nat} {persist_ok : Bool}
    (h : update_timeline_operation db operation_id u user_id persist_ok = .ok db') :
    persist_ok = true ∧
    ∃ row user,
      db.timeline.find? (fun r => r.id == operation_id) = some row ∧
      db.users.find? (fun w => w.id == user_id) = some user ∧
      ¬(row.user_id ≠ user_id ∧ user.role ≠ "owner") ∧
      db'.timeline = db.timeline.map (fun r =>
        if r.id == operation_id then apply_update_fields r u else r) ∧
      db'.next_id = db.next_id ∧
      db'.payment_methods = db.payment_methods ∧
      db'.users = db.users ∧
      (balances_nonneg db → balances_nonneg db') ∧
      ((u.amount = none ∨ u.amount = some row.amount) →
         ∀ x, balance_of db' x = balance_of db x) ∧
      (∀ new_amount, u.amount = some new_amount → new_amount ≠ row.amount →
        (row.type = "expense" →
           ∃ rid, resolve_payment_method db row.payment_method_id = .ok rid ∧
             balance_shift db db' (single_delta rid (row.amount - new_amount))) ∧
        (row.type = "income" →
           ∃ rid, resolve_payment_method db row.payment_method_id = .ok rid ∧
             balance_shift db db' (single_delta rid (new_amount - row.amount))) ∧
        (row.type = "transfer" →
           balance_shift db db' (fun x =>
             opt_delta row.from_account_id (row.amount - new_amount) x +
             opt_delta row.to_account_id (new_amount - row.amount) x))) := by
  unfold update_timeline_operation at h
  split at h
  · exact absurd h (by simp)
  · rename_i row hrow
    split at h
    · exact absurd h (by simp)
    · rename_i user huser
      split at h
      · exact absurd h (by simp)
      · rename_i hauth
        split at h
        · exact absurd h (by simp)
        · rename_i db1 hbal
          split at h
          · rename_i hp
            have hdb : { db1 with timeline := db1.timeline.map (fun r =>
                if r.id == operation_id then apply_update_fields r u else r) } = db' :=
              Except.ok.inj h
            have hframe : db1.payment_methods = db.payment_methods ∧
                db1.timeline = db.timeline ∧ db1.users = db.users ∧
                db1.next_id = db.next_id ∧
                (balances_nonneg db → balances_nonneg db1) := by
              cases hu : u.amount with
              | none =>
                simp only [hu] at hbal
                have : db = db1 := Except.ok.inj hbal
                subst this
                exact ⟨rfl, rfl, rfl, rfl, id⟩
              | some new_amount =>
                simp only [hu] at hbal
                by_cases hne : new_amount = row.amount
                · rw [if_neg (not_not_intro hne)] at hbal
                  have : db = db1 := Except.ok.inj hbal
                  subst this
                  exact ⟨rfl, rfl, rfl, rfl, id⟩
                · rw [if_pos hne] at hbal
                  obtain ⟨hf, hn, _⟩ := apply_update_balances_ok hbal
                  exact ⟨hf.1, hf.2.1, hf.2.2.1, hf.2.2.2, hn⟩
            refine ⟨hp, row, user, hrow, huser, hauth, ?_, ?_, ?_, ?_, ?_, ?_, ?_⟩
            · rw [← hdb]
              show db1.timeline.map _ = _
              rw [hframe.2.1]
            · rw [← hdb]; exact hframe.2.2.2.1
            · rw [← hdb]; exact hframe.1
            · rw [← hdb]; exact hframe.2.2.1
            · intro hg
              have h1 := hframe.2.2.2.2 hg
              rw [← hdb]
              exact h1
            · intro hca x
              have hdb1 : db = db1 := by
                cases hca with
                | inl hu =>
                  simp only [hu] at hbal
                  exact Except.ok.inj hbal
                | inr hu =>
                  simp only [hu] at hbal
                  rw [if_neg (not_not_intro rfl)] at hbal
                  exact Except.ok.inj hbal
              subst hdb1
              rw [← hdb]
              rfl
            · intro new_amount hnew hne
              simp only [hnew] at hbal
              rw [if_pos hne] at hbal
              obtain ⟨hf, hn, hexp, hinc, htr⟩ := apply_update_balances_ok hbal
              have hcast : ∀ d, balance_shift db db1 d → balance_shift db db' d := by
                intro d hs x
                rw [← hdb]
                exact hs x
              refine ⟨?_, ?_, ?_⟩
              · intro hty
                obtain ⟨rid, hres, hs⟩ := hexp hty
                exact ⟨rid, hres, hcast _ hs⟩
              · intro hty
                obtain ⟨rid, hres, hs⟩ := hinc hty
                exact ⟨rid, hres, hcast _ hs⟩
              · intro hty
                exact hcast _ (htr hty)
          · exact absurd h (by simp)

theorem delete_timeline_operation_ok {db db' : DB} {operation_id : Nat}
    {user_id : Nat} {persist_ok : Bool}
    (h : delete_timeline_operation db operation_id user_id persist_ok = .ok db') :
    persist_ok = true ∧
    ∃ row user,
      db.timeline.find? (fun r => r.id == operation_id) = some row ∧
      db.users.find? (fun w => w.id == user_id) = some user ∧
      ¬(row.user_id ≠ user_id ∧ user.role ≠ "owner") ∧
      db'.timeline = db.timeline.filter (fun r => r.id != operation_id) ∧
      db'.next_id = db.next_id ∧
      db'.payment_methods = db.payment_methods ∧
      db'.users = db.users ∧
      (balances_nonneg db → balances_nonneg db') ∧
      (row.type = "expense" →
         ∃ rid, resolve_payment_method db row.payment_method_id = .ok rid ∧
           balance_shift db db' (single_delta rid row.amount)) ∧
      (row.type = "income" →
         ∃ rid, resolve_payment_method db row.payment_method_id = .ok rid ∧
           balance_shift db db' (single_delta rid (-row.amount))) ∧
      (row.type = "transfer" →
         balance_shift db db' (fun x =>
           opt_delta row.from_account_id row.amount x +
           opt_delta row.to_account_id (-row.amount) x)) := by
  unfold delete_timeline_operation at h
  split at h
  · exact absurd h (by simp)
  · rename_i row hrow
    split at h
    · exact absurd h (by simp)
    · rename_i user huser
      split at h
      · exact absurd h (by simp)
      · rename_i hauth
        split at h
        · exact absurd h (by simp)
        · rename_i db1 hbal
          split at h
          · rename_i hp
            have hdb : { db1 with timeline := db1.timeline.filter (fun r =>
                r.id != operation_id) } = db' := Except.ok.inj h
            obtain ⟨hf, hn, hexp, hinc, htr⟩ := apply_delete_balances_ok hbal
            have hcast : ∀ d, balance_shift db db1 d → balance_shift db db' d := by
              intro d hs x
              rw [← hdb]
              exact hs x
            refine ⟨hp, row, user, hrow, huser, hauth, ?_, ?_, ?_, ?_, ?_, ?_, ?_, ?_⟩
            · rw [← hdb]
              show db1.timeline.filter _ = _
              rw [hf.2.1]
            · rw [← hdb]; exact hf.2.2.2
            · rw [← hdb]; exact hf.1
            · rw [← hdb]; exact hf.2.2.1
            · intro hg
              have h1 := hn hg
              rw [← hdb]
              exact h1
            · intro hty
              obtain ⟨rid, hres, hs⟩ := hexp hty
              exact ⟨rid, hres, hcast _ hs⟩
            · intro hty
              obtain ⟨rid, hres, hs⟩ := hinc hty
              exact ⟨rid, hres, hcast _ hs⟩
            · intro hty
              exact hcast _ (htr hty)
          · exact absurd h (by simp)

theorem run_request_nonneg {db : DB} (hg : balances_nonneg db) (r : LedgerRequest) :
    balances_nonneg (run_request db r) := by
  unfold run_request
  cases h : apply_request db r with
  | error e => exact hg
  | ok db' =>
    cases r with
    | create operation user_id persist_ok =>
      exact (create_timeline_operation_ok h).2.2.2.2.2.1 hg
    | update operation_id u user_id persist_ok =>
      obtain ⟨-, -, -, -, -, -, -, -, -, -, hn, -, -⟩ := update_timeline_operation_ok h
      exact hn hg
    | delete operation_id user_id persist_ok =>
      obtain ⟨-, -, -, -, -, -, -, -, -, -, hn, -, -, -⟩ := delete_timeline_operation_ok h
      exact hn hg

theorem run_requests_nonneg {db : DB} (hg : balances_nonneg db)
    (rs : List LedgerRequest) : balances_nonneg (run_requests db rs) := by
  induction rs generalizing db with
  | nil => exact hg
  | cons r rs ih => exact ih (run_request_nonneg hg r)

/-- C2: starting from a state with only non-negative balances, no sequence of
Create/Update/Delete requests ever drives any account's `current_balance`
below zero; a request that fails (in particular with `insufficientFunds`,
which `update_account_balance` raises exactly when the written balance would
be negative) leaves the whole state unchanged. -/
theorem thm_C2 (db : DB) (hg : balances_nonneg db) :
    (∀ rs : List LedgerRequest, balances_nonneg (run_requests db rs)) ∧
    (∀ r e, apply_request db r = .error e → run_request db r = db) ∧
    (∀ aid c account, get_account db aid = some account →
       account.current_balance + c < 0 →
       update_account_balance db aid c = .error .insufficientFunds) := by
  refine ⟨fun rs => run_requests_nonneg hg rs, ?_, ?_⟩
  · intro r e h
    unfold run_request
    rw [h]
  · intro aid c account hacct hneg
    exact update_account_balance_insufficient hacct hneg

/-- Witness for C2 at the spec's example state and scenario requests. -/
theorem thm_C2_witness :
    balances_nonneg (run_requests ex_db
      [.create ex_expense300 1 true, .create ex_transfer200 1 true]) :=
  (thm_C2 ex_db (by unfold balances_nonneg; decide)).1
    [.create ex_expense300 1 true, .create ex_transfer200 1 true]

/-- C4: every Create/Update/Delete is all-or-nothing. A request that returns
any error (typed or the injected persistence failure) leaves the state
exactly as it was; a successful request performs its timeline write (insert,
field update, or row deletion) in the same committed state as its balance
updates. -/
theorem thm_C4 (db : DB) :
    (∀ r e, apply_request db r = .error e → run_request db r = db) ∧
    (∀ operation user_id persist_ok db',
       create_timeline_operation db operation user_id persist_ok = .ok db' →
       db'.timeline = db.timeline ++ [timeline_row_of db operation user_id] ∧
       db'.next_id = db.next_id + 1) ∧
    (∀ operation_id u user_id persist_ok db',
       update_timeline_operation db operation_id u user_id persist_ok = .ok db' →
       db'.timeline = db.timeline.map (fun r =>
         if r.id == operation_id then apply_update_fields r u else r) ∧
       db'.next_id = db.next_id) ∧
    (∀ operation_id user_id persist_ok db',
       delete_timeline_operation db operation_id user_id persist_ok = .ok db' →
       db'.timeline = db.timeline.filter (fun r => r.id != operation_id) ∧
       db'.next_id = db.next_id) := by
  refine ⟨?_, ?_, ?_, ?_⟩
  · intro r e h
    unfold run_request
    rw [h]
  · intro operation user_id persist_ok db' h
    obtain ⟨-, ht, hn, -⟩ := create_timeline_operation_ok h
    exact ⟨ht, hn⟩
  · intro operation_id u user_id persist_ok db' h
    obtain ⟨-, -, -, -, -, -, ht, hn, -⟩ := update_timeline_operation_ok h
    exact ⟨ht, hn⟩
  · intro operation_id user_id persist_ok db' h
    obtain ⟨-, -, -, -, -, -, ht, hn, -⟩ := delete_timeline_operation_ok h
    exact ⟨ht, hn⟩

/-- Witness for C4: a persistence failure injected into the spec's expense
scenario leaves the state untouched, and the successful run inserts exactly
the one new row. -/
theorem thm_C4_witness :
    run_request ex_db (.create ex_expense300 1 false) = ex_db ∧
    ex_db700.timeline = ex_db.timeline ++ [timeline_row_of ex_db ex_expense300 1] :=
  ⟨(thm_C4 ex_db).1 (.create ex_expense300 1 false) .persistence (by decide),
   ((thm_C4 ex_db).2.1 ex_expense300 1 true ex_db700 (by decide)).1⟩

/-- C3 (amended): a successful Create changes balances by exactly the delta
`D = applied_delta` of the inserted row; a successful Delete changes them by
exactly `-D`, and a successful amount-changing Update by exactly `-D + D'`,
where for expense/income rows the account entering `D` is the one the
payment-method resolution yields at reversal time (which equals the original
account whenever the resolution is unchanged). -/
theorem thm_C3 (db : DB) :
    (∀ operation uid db',
       create_timeline_operation db operation uid true = .ok db' →
       ((operation.type = "expense" ∨ operation.type = "income") →
          ∃ rid, resolve_payment_method db operation.payment_method_id = .ok rid ∧
            balance_shift db db' (applied_delta (timeline_row_of db operation uid) rid)) ∧
       (operation.type = "transfer" →
          ∀ rid, balance_shift db db' (applied_delta (timeline_row_of db operation uid) rid))) ∧
    (∀ operation_id uid row db',
       db.timeline.find? (fun r => r.id == operation_id) = some row →
       delete_timeline_operation db operation_id uid true = .ok db' →
       ((row.type = "expense" ∨ row.type = "income") →
          ∃ rid, resolve_payment_method db row.payment_method_id = .ok rid ∧
            balance_shift db db' (fun x => -applied_delta row rid x)) ∧
       (row.type = "transfer" →
          ∀ rid, balance_shift db db' (fun x => -applied_delta row rid x))) ∧
    (∀ operation_id u uid new_amount row db',
       db.timeline.find? (fun r => r.id == operation_id) = some row →
       u.amount = some new_amount → new_amount ≠ row.amount →
       update_timeline_operation db operation_id u uid true = .ok db' →
       ((row.type = "expense" ∨ row.type = "income") →
          ∃ rid, resolve_payment_method db row.payment_method_id = .ok rid ∧
            balance_shift db db' (fun x => -applied_delta row rid x +
              applied_delta { row with amount := new_amount } rid x)) ∧
       (row.type = "transfer" →
          ∀ rid, balance_shift db db' (fun x => -applied_delta row rid x +
            applied_delta { row with amount := new_amount } rid x))) := by
  refine ⟨?_, ?_, ?_⟩
  · intro operation uid db' h
    obtain ⟨-, -, -, -, -, -, hexp, hinc, htr⟩ := create_timeline_operation_ok h
    constructor
    · intro hei
      cases hei with
      | inl hty =>
        obtain ⟨rid, hres, hs⟩ := hexp hty
        refine ⟨rid, hres, balance_shift_congr hs ?_⟩
        intro x
        simp [applied_delta, timeline_row_of, hty]
      | inr hty =>
        obtain ⟨rid, hres, hs⟩ := hinc hty
        refine ⟨rid, hres, balance_shift_congr hs ?_⟩
        intro x
        simp [applied_delta, timeline_row_of, hty]
    · intro hty rid
      refine balance_shift_congr (htr hty) ?_
      intro x
      simp [applied_delta, timeline_row_of, hty]
  · intro operation_id uid row db' hrow h
    obtain ⟨-, row2, user, hrow2, -, -, -, -, -, -, -, hexp, hinc, htr⟩ :=
      delete_timeline_operation_ok h
    have hr : row = row2 := Option.some.inj (hrow.symm.trans hrow2)
    subst hr
    constructor
    · intro hei
      cases hei with
      | inl hty =>
        obtain ⟨rid, hres, hs⟩ := hexp hty
        refine ⟨rid, hres, balance_shift_congr hs ?_⟩
        intro x
        simp [applied_delta, hty, single_delta]
        by_cases hx : x = rid <;> simp [hx]
      | inr hty =>
        obtain ⟨rid, hres, hs⟩ := hinc hty
        refine ⟨rid, hres, balance_shift_congr hs ?_⟩
        intro x
        simp [applied_delta, hty, single_delta]
        by_cases hx : x = rid <;> simp [hx]
    · intro hty rid
      refine balance_shift_congr (htr hty) ?_
      intro x
      simp [applied_delta, hty, opt_delta]
      by_cases h12 : row.from_account_id = row.to_account_id
      · simp only [h12]
        by_cases h2 : some x = row.to_account_id <;> simp [h2] <;> try ring
      · have h21 : ¬ row.to_account_id = row.from_account_id := fun hc => h12 hc.symm
        by_cases h1 : some x = row.from_account_id <;>
          by_cases h2 : some x = row.to_account_id
        · exact absurd (h1.symm.trans h2) h12
        · simp [h1, h2, h12, h21]
          try ring
        · simp [h1, h2, h12, h21]
          try ring
        · simp [h1, h2]
          try ring
  · intro operation_id u uid new_amount row db' hrow hnew hne h
    obtain ⟨-, row2, user, hrow2, -, -, -, -, -, -, -, -, hch⟩ :=
      update_timeline_operation_ok h
    have hr : row = row2 := Option.some.inj (hrow.symm.trans hrow2)
    subst hr
    obtain ⟨hexp, hinc, htr⟩ := hch new_amount hnew hne
    constructor
    · intro hei
      cases hei with
      | inl hty =>
        obtain ⟨rid, hres, hs⟩ := hexp hty
        refine ⟨rid, hres, balance_shift_congr hs ?_⟩
        intro x
        simp only [applied_delta, hty]
        simp [single_delta]
        by_cases hx : x = rid <;> simp [hx] <;> ring
      | inr hty =>
        obtain ⟨rid, hres, hs⟩ := hinc hty
        refine ⟨rid, hres, balance_shift_congr hs ?_⟩
        intro x
        simp only [applied_delta, hty]
        simp [single_delta]
        by_cases hx : x = rid <;> simp [hx] <;> ring
    · intro hty rid
      refine balance_shift_congr (htr hty) ?_
      intro x
      simp [applied_delta, hty, opt_delta]
      by_cases h12 : row.from_account_id = row.to_account_id
      · simp only [h12]
        by_cases h2 : some x = row.to_account_id <;> simp [h2] <;> try ring
      · have h21 : ¬ row.to_account_id = row.from_account_id := fun hc => h12 hc.symm
        by_cases h1 : some x = row.from_account_id <;>
          by_cases h2 : some x = row.to_account_id
        · exact absurd (h1.symm.trans h2) h12
        · simp [h1, h2, h12, h21]
          try ring
        · simp [h1, h2, h12, h21]
          try ring
        · simp [h1, h2]
          try ring

/-- Witness for C3: deleting the stored transfer of scenario 5 shifts the
Cash balance by exactly the negated transfer delta. -/
theorem thm_C3_witness :
    balance_of ex_db_after_transfer_delete 1 =
      (balance_of ex_db_after_transfer 1).map
        (fun b => b + -applied_delta (timeline_row_of ex_db700 ex_transfer200 1) 0 1) :=
  (((thm_C3 ex_db_after_transfer).2.1 2 1 (timeline_row_of ex_db700 ex_transfer200 1)
      ex_db_after_transfer_delete (by decide) (by decide)).2 (by decide) 0) 1

/-- C3 counterexample to the claim as stated: for the stored income of 100
whose cash account has since been drained to 0, Delete does not change
balances by `-D = -100`; it fails with `insufficientFunds` and changes them
by nothing. -/
theorem ce_C3 :
    ex_db_drained.timeline.find? (fun r => r.id == 9) = some ex_income_row ∧
    applied_delta ex_income_row 1 1 = 100 ∧
    delete_timeline_operation ex_db_drained 9 1 true = .error .insufficientFunds ∧
    balance_of (run_request ex_db_drained (.delete 9 1 true)) 1 = some 0 ∧
    (some (0 : Int) ≠ some (0 - 100 : Int)) := by decide

/-- C5 (amended): the create path has no commission handling at all (the
request model has no commission field and any extra field is dropped), so a
successful transfer Create decreases the source by exactly `amount` and
increases the destination by exactly `amount`. -/
theorem thm_C5 (db : DB) (operation : TimelineOperationCreate) (user_id : Nat)
    (db' : DB) (hty : operation.type = "transfer")
    (h : create_timeline_operation db operation user_id true = .ok db') :
    ∀ x, balance_of db' x = (balance_of db x).map (fun b =>
      b + (opt_delta operation.from_account_id (-operation.amount) x +
           opt_delta operation.to_account_id operation.amount x)) :=
  (create_timeline_operation_ok h).2.2.2.2.2.2.2.2 hty

/-- Witness for C5 at scenario 4's transfer. -/
theorem thm_C5_witness :
    balance_of ex_db_after_transfer 1 =
      (balance_of ex_db700 1).map (fun b =>
        b + (opt_delta ex_transfer200.from_account_id (-ex_transfer200.amount) 1 +
             opt_delta ex_transfer200.to_account_id ex_transfer200.amount 1)) :=
  thm_C5 ex_db700 ex_transfer200 1 ex_db_after_transfer (by decide) (by decide) 1

/-- C5 counterexample to the claim as stated: the spec's scenario 4 (transfer
of 200 with commission 10 from Cash at 700) leaves Cash at 500, not at the
claimed 490 = 700 − 200 − 10; no commission is ever deducted. -/
theorem ce_C5 :
    create_timeline_operation ex_db700 ex_transfer200 1 true = .ok ex_db_after_transfer ∧
    balance_of ex_db700 1 = some 700 ∧
    balance_of ex_db_after_transfer 1 = some 500 ∧
    balance_of ex_db_after_transfer 2 = some 200 ∧
    ((500 : Int) ≠ 700 - 200 - 10) := by decide

/-- C6 (amended): Create accepts only expense, income and transfer; every
incasation draft — however well-formed — is rejected up front with the
invalid-operation-type validation error. -/
theorem thm_C6 (db : DB) (operation : TimelineOperationCreate) (user_id : Nat)
    (persist_ok : Bool) (hty : operation.type = "incasation") :
    create_timeline_operation db operation user_id persist_ok = .error .invalidType := by
  unfold create_timeline_operation validate_operation_data
  rw [hty]
  rw [if_pos (by decide :
    ¬("incasation" = "expense" ∨ "incasation" = "income" ∨ "incasation" = "transfer"))]

/-- Witness for C6 at the concrete incasation draft. -/
theorem thm_C6_witness :
    create_timeline_operation ex_db ex_incasation 1 true = .error .invalidType :=
  thm_C6 ex_db ex_incasation 1 true (by decide)

/-- C6 counterexample to the claim as stated: a valid incasation draft
(distinct accounts, positive amount) does not succeed; it is rejected as an
invalid type, and no balance moves. -/
theorem ce_C6 :
    ex_incasation.from_account_id ≠ ex_incasation.to_account_id ∧
    0 < ex_incasation.amount ∧
    create_timeline_operation ex_db ex_incasation 1 true = .error .invalidType ∧
    run_request ex_db (.create ex_incasation 1 true) = ex_db := by decide

/-- C7 (amended): the payment-method heuristic classifies by EXACT
case-insensitive equality of the method name with "cash" or "наличные"
(not by substring match): an equal name selects the first active cash-type
account, any other name the first active bank-type account, in both cases
falling back to the first active account of any type and failing with 404
when no active account exists. -/
theorem thm_C7 (db : DB) (payment_method_id : Nat) (pm : PaymentMethod)
    (hpm : db.payment_methods.find? (fun m => m.id == payment_method_id) = some pm) :
    ((py_lower pm.name = "наличные" ∨ py_lower pm.name = "cash") →
       (∀ a, db.accounts.find? (fun a => a.type == "cash" && a.is_active) = some a →
          get_account_for_payment_method db payment_method_id = .ok a.id) ∧
       (db.accounts.find? (fun a => a.type == "cash" && a.is_active) = none →
          (∀ a, db.accounts.find? (fun a => a.is_active) = some a →
             get_account_for_payment_method db payment_method_id = .ok a.id) ∧
          (db.accounts.find? (fun a => a.is_active) = none →
             get_account_for_payment_method db payment_method_id = .error .notFound))) ∧
    (¬(py_lower pm.name = "наличные" ∨ py_lower pm.name = "cash") →
       (∀ a, db.accounts.find? (fun a => a.type == "bank" && a.is_active) = some a →
          get_account_for_payment_method db payment_method_id = .ok a.id) ∧
       (db.accounts.find? (fun a => a.type == "bank" && a.is_active) = none →
          (∀ a, db.accounts.find? (fun a => a.is_active) = some a →
             get_account_for_payment_method db payment_method_id = .ok a.id) ∧
          (db.accounts.find? (fun a => a.is_active) = none →
             get_account_for_payment_method db payment_method_id = .error .notFound))) := by
  constructor
  · intro hcash
    have hunf : get_account_for_payment_method db payment_method_id =
        match db.accounts.find? (fun a => a.type == "cash" && a.is_active) with
        | some account => .ok account.id
        | none =>
          match db.accounts.find? (fun a => a.is_active) with
          | some account => .ok account.id
          | none => .error .notFound := by
      unfold get_account_for_payment_method
      rw [hpm]
      simp only [if_pos hcash]
    refine ⟨?_, ?_⟩
    · intro a ha
      rw [hunf, ha]
    · intro hnone
      refine ⟨?_, ?_⟩
      · intro a ha
        rw [hunf, hnone, ha]
      · intro hnone2
        rw [hunf, hnone, hnone2]
  · intro hcash
    have hunf : get_account_for_payment_method db payment_method_id =
        match db.accounts.find? (fun a => a.type == "bank" && a.is_active) with
        | some account => .ok account.id
        | none =>
          match db.accounts.find? (fun a => a.is_active) with
          | some account => .ok account.id
          | none => .error .notFound := by
      unfold get_account_for_payment_method
      rw [hpm]
      simp only [if_neg hcash]
    refine ⟨?_, ?_⟩
    · intro a ha
      rw [hunf, ha]
    · intro hnone
      refine ⟨?_, ?_⟩
      · intro a ha
        rw [hunf, hnone, ha]
      · intro hnone2
        rw [hunf, hnone, hnone2]

/-- Witness for C7: the method named "Наличные" resolves to the first active
cash-type account of the example state. -/
theorem thm_C7_witness :
    get_account_for_payment_method ex_db 5 = .ok 1 :=
  ((thm_C7 ex_db 5 ⟨5, "Наличные"⟩ (by decide)).1 (by decide)).1
    ⟨1, "Cash", "cash", 1000, true⟩ (by decide)

/-- C7 counterexample to the claim as stated: the payment method named
"Cash Register" contains "cash" case-insensitively, yet it is classified as
bank-like — the code resolves it to bank account 2 even though an active
cash-type account (id 1) exists. -/
theorem ce_C7 :
    py_lower "Cash Register" = "cash register" ∧
    "cash".data.isPrefixOf (py_lower "Cash Register").data = true ∧
    (ex_db.payment_methods.find? (fun m => m.id == 7)).map (fun m => m.name) =
      some "Cash Register" ∧
    ex_db.accounts.find? (fun a => a.type == "cash" && a.is_active) =
      some ⟨1, "Cash", "cash", 1000, true⟩ ∧
    get_account_for_payment_method ex_db 7 = .ok 2 ∧
    (get_account ex_db 2).map (fun a => a.type) = some "bank" := by decide

/-- C8: an Update whose payload has no amount, or an amount equal to the
stored one, never changes any account balance — whether it succeeds or
fails. -/
theorem thm_C8 (db : DB) (operation_id : Nat) (u : TimelineOperationUpdate)
    (user_id : Nat) (persist_ok : Bool)
    (hca : u.amount = none ∨
      ∃ row, db.timeline.find? (fun r => r.id == operation_id) = some row ∧
        u.amount = some row.amount) :
    ∀ x, balance_of (run_request db (.update operation_id u user_id persist_ok)) x =
      balance_of db x := by
  intro x
  unfold run_request
  cases h : apply_request db (.update operation_id u user_id persist_ok) with
  | error e => rfl
  | ok db' =>
    obtain ⟨-, row, user, hrow, -, -, -, -, -, -, -, hbal, -⟩ :=
      update_timeline_operation_ok h
    apply hbal
    cases hca with
    | inl h0 => exact Or.inl h0
    | inr h0 =>
      obtain ⟨row2, hrow2, hamt⟩ := h0
      have hr : row2 = row := Option.some.inj (hrow2.symm.trans hrow)
      exact Or.inr (hr ▸ hamt)

/-- Witness for C8: changing only the description of the stored expense
leaves the Cash balance at 700. -/
theorem thm_C8_witness :
    balance_of (run_request ex_db700
      (.update 1 { description := some "charcoal" } 1 true)) 1 =
      balance_of ex_db700 1 :=
  thm_C8 ex_db700 1 { description := some "charcoal" } 1 true (Or.inl rfl) 1

/-- C9: deleting a stored income fails with `insufficientFunds` whenever the
account the payment-method resolution designates holds less than the
income's amount, and the failed request leaves the database unchanged. -/
theorem thm_C9 (db : DB) (operation_id user_id : Nat) (persist_ok : Bool)
    (row : TimelineRow) (user : User) (rid : Nat) (account : Account)
    (hrow : db.timeline.find? (fun r => r.id == operation_id) = some row)
    (hty : row.type = "income")
    (huser : db.users.find? (fun w => w.id == user_id) = some user)
    (hauth : ¬(row.user_id ≠ user_id ∧ user.role ≠ "owner"))
    (hres : resolve_payment_method db row.payment_method_id = .ok rid)
    (hacct : get_account db rid = some account)
    (hlow : account.current_balance < row.amount) :
    delete_timeline_operation db operation_id user_id persist_ok =
      .error .insufficientFunds ∧
    run_request db (.delete operation_id user_id persist_ok) = db := by
  have hadb : apply_delete_balances db row = .error .insufficientFunds := by
    unfold apply_delete_balances
    rw [hty]
    rw [if_neg (by decide : ¬("income" = "expense")), if_pos rfl]
    rw [hres]
    exact update_account_balance_insufficient hacct (by omega)
  have hdel : delete_timeline_operation db operation_id user_id persist_ok =
      .error .insufficientFunds := by
    unfold delete_timeline_operation
    simp only [hrow, huser]
    rw [if_neg hauth]
    simp only [hadb]
  refine ⟨hdel, ?_⟩
  unfold run_request apply_request
  simp only [hdel]

/-- Witness for C9 at the drained example state. -/
theorem thm_C9_witness :
    delete_timeline_operation ex_db_drained 9 1 true = .error .insufficientFunds ∧
    run_request ex_db_drained (.delete 9 1 true) = ex_db_drained :=
  thm_C9 ex_db_drained 9 1 true ex_income_row ⟨1, "owner"⟩ 1
    ⟨1, "Cash", "cash", 0, true⟩ (by decide) (by decide) (by decide) (by decide)
    (by decide) (by decide) (by decide)

/-- C10: a successful Update rewrites the stored row only through
`apply_update_fields`, which never touches `from_account_id`,
`to_account_id` or `location_id` — even when the payload supplies them. -/
theorem thm_C10 (db : DB) (operation_id : Nat) (u : TimelineOperationUpdate)
    (user_id : Nat) (persist_ok : Bool) (db' : DB) (row : TimelineRow)
    (hrow : db.timeline.find? (fun r => r.id == operation_id) = some row)
    (h : update_timeline_operation db operation_id u user_id persist_ok = .ok db') :
    db'.timeline.find? (fun r => r.id == operation_id) =
      some (apply_update_fields row u) ∧
    (apply_update_fields row u).from_account_id = row.from_account_id ∧
    (apply_update_fields row u).to_account_id = row.to_account_id ∧
    (apply_update_fields row u).location_id = row.location_id := by
  obtain ⟨-, row2, user, hrow2, -, -, ht, -, -, -, -, -, -⟩ :=
    update_timeline_operation_ok h
  have hr : row = row2 := Option.some.inj (hrow.symm.trans hrow2)
  subst hr
  refine ⟨?_, rfl, rfl, rfl⟩
  have hcomm : ∀ r : TimelineRow,
      ((if r.id == operation_id then apply_update_fields r u else r).id == operation_id)
        = (r.id == operation_id) := by
    intro r
    by_cases hc : (r.id == operation_id) = true
    · rw [if_pos hc]
      rfl
    · rw [if_neg hc]
  rw [ht]
  rw [find?_map_of_pred_comm
    (fun r => if r.id == operation_id then apply_update_fields r u else r)
    (fun r => r.id == operation_id) hcomm db.timeline]
  rw [hrow]
  have hid : (row.id == operation_id) = true := by simpa using List.find?_some hrow
  simp [hid]
  exact fun hcontra => absurd (by simpa using hid) hcontra

/-- Witness for C10: updating the stored expense with a payload that also
supplies from/to/location ids changes none of those stored fields. -/
theorem thm_C10_witness :
    (run_request ex_db700
        (.update 1 { category_id := some 9, from_account_id := some 2,
                     to_account_id := some 1, location_id := some 4 } 1 true)).timeline.find?
        (fun r => r.id == 1) =
      some (apply_update_fields (timeline_row_of ex_db ex_expense300 1)
        { category_id := some 9, from_account_id := some 2,
          to_account_id := some 1, location_id := some 4 }) :=
  (thm_C10 ex_db700 1
    { category_id := some 9, from_account_id := some 2,
      to_account_id := some 1, location_id := some 4 } 1 true
    (run_request ex_db700
      (.update 1 { category_id := some 9, from_account_id := some 2,
                   to_account_id := some 1, location_id := some 4 } 1 true))
    (timeline_row_of ex_db ex_expense300 1) (by decide) (by decide)).1

/-- C1: the code RE-RESOLVES the affected account from the stored payment
method at reversal time. Concretely: an expense of 40 paid with "Card" is
charged to bank account A (id 1, 100 → 60); after A is deactivated and bank
account B (id 2, at 50) is opened, deleting the expense refunds B (50 → 90)
and leaves A at 60 — the originally-affected account does not receive the
negation, contradicting the documented reversal semantics. -/
theorem thm_C1 :
    create_timeline_operation c1_db0 c1_expense40 1 true = .ok c1_db1 ∧
    balance_of c1_db1 1 = some 60 ∧
    c1_db2.timeline.find? (fun r => r.id == 1) =
      some (timeline_row_of c1_db0 c1_expense40 1) ∧
    delete_timeline_operation c1_db2 1 1 true = .ok c1_db3 ∧
    balance_of c1_db3 1 = some 60 ∧
    balance_of c1_db3 2 = some 90 := by decide

end AirWaffle
